import Mathlib

/-!
Verification development for the pickle-rs stream decoder.

The Rust sources (src/error.rs, src/value.rs, src/wrappers.rs, src/pickle.rs)
are shallowly embedded below.  Bytes are modelled as `Nat` values below 256,
byte buffers and Rust `String`s as `List Nat` (the UTF-8 byte sequence),
`u32`/`i32`/`i128`/`BigInt` values as `Nat`/`Int` with explicit range checks
where the Rust type is bounded.  Fallible Rust code returning
`Result<T, Error>` is embedded as the `Res` type below, which additionally
has a `panicked` outcome modelling Rust panics (`todo!`, `unreachable!`,
`unwrap` on `None`, `panic!` without the bang, out-of-bounds indexing);
the carried message is the message text passed at the panic site.
-/

set_option maxRecDepth 100000

namespace Pickle

/-- `std::io::Error` kinds that the in-memory byte reader can produce:
`read_exact` past end of input gives `UnexpectedEof`; `read_line` on
non-UTF-8 bytes gives `InvalidData`. -/
inductive IoErr where
  | unexpectedEof
  | invalidData
deriving DecidableEq

/-- Mirror of `ErrorCode` in src/error.rs.  The Rust `Unsupported` carries a
`char` and `InvalidValue`/`InvalidStackTop`/`Structure` carry formatted
strings; we keep the static message text and do not model the interpolated
`Debug` renderings.  `invalidString` is referenced by src/pickle.rs
(`ErrorCode::InvalidString` in `load_string`) although absent from the
`ErrorCode` enum in src/error.rs; it is included here so that `load_string`
can be embedded as written. -/
inductive ErrorCode where
  | unsupported (op : Nat)
  | eofWhileParsing
  | stackUnderflow
  | negativeLength
  | stringNotUTF8
  | invalidStackTop (expected : String) (got : String)
  | valueNotHashable
  | recursive
  | unresolvedGlobal
  | unsupportedGlobal (modName : List Nat) (globName : List Nat)
  | missingMemo (id : Nat)
  | invalidLiteral (raw : List Nat)
  | trailingBytes
  | invalidValue (msg : String)
  | structureErr (msg : String)
  | invalidString
deriving DecidableEq

/-- Mirror of `Error` in src/error.rs (`Io`, `Eval`, `Syntax`); the `Syntax`
constructor is named `syn` here. -/
inductive PError where
  | io (e : IoErr)
  | eval (code : ErrorCode) (pos : Nat)
  | syn (code : ErrorCode)
deriving DecidableEq

/-- Outcome of running embedded Rust code: `Ok`, `Err`, or a panic.
`panicked` carries the message text from the panic site (`todo!` argument,
`unreachable!` text, or a description of the `unwrap`/indexing failure). -/
inductive Res (α : Type) where
  | ok (a : α)
  | err (e : PError)
  | panicked (msg : String)

/-- Sequencing of fallible embedded code: errors and panics propagate. -/
def Res.bind {α β : Type} : Res α → (α → Res β) → Res β
  | .ok a, f => f a
  | .err e, _ => .err e
  | .panicked m, _ => .panicked m

/-- Mirror of `Global` in src/value.rs. -/
inductive Global where
  | set
  | frozenset
  | bytearray
  | list
  | int
  | encode
  | other
deriving DecidableEq

/-- Mirror of the `Value` enum.  src/value.rs declares `Int(BigInt)` and no
`I128`, while src/pickle.rs constructs `Value::Int` from `i32`/`u16` values
and `Value::I128` from `i128`, and src/tests/mod.rs uses both `Value::Int`
with small literals and `Value::I128`; both integer variants are embedded
with mathematical integer payloads.  `F64` carries the decimal literal bytes
the interpreter parsed (no verified property inspects interpreted float
values; `BINFLOAT` is unimplemented in the source).  `String` and `PersId`
carry UTF-8 bytes.  `Dict` pairs are raw values as built by `load_dict` and
`load_setitem` in src/pickle.rs. -/
inductive Value where
  | memoRef (id : Nat)
  | global (g : Global)
  | none
  | bool (b : Bool)
  | i64 (n : Int)
  | int (n : Int)
  | i128 (n : Int)
  | f64 (lit : List Nat)
  | bytes (bs : List Nat)
  | string (bs : List Nat)
  | list (items : List Value)
  | tuple (items : List Value)
  | set (items : List Value)
  | frozenset (items : List Value)
  | dict (pairs : List (Value × Value))
  | persId (line : List Nat)
  | binPersId (v : Value)

/-- `BufRead::read_exact` into a 1-byte buffer. -/
def readByte (input : List Nat) : Res (Nat × List Nat) :=
  match input with
  | [] => .err (.io .unexpectedEof)
  | b :: rest => .ok (b, rest)

/-- `BufRead::read_exact` into an `n`-byte buffer. -/
def readExact (n : Nat) (input : List Nat) : Res (List Nat × List Nat) :=
  if n ≤ input.length then .ok (input.take n, input.drop n)
  else .err (.io .unexpectedEof)

/-- Split the input at the first LF byte; the returned line includes the LF
when present, and is the whole input when no LF occurs before end of
stream.  This is the read pattern of both `read_line` and
`read_until(b'\n', ..)`. -/
def splitAtNl : List Nat → List Nat × List Nat
  | [] => ([], [])
  | b :: rest =>
    if b = 10 then ([10], rest)
    else
      let p := splitAtNl rest
      (b :: p.1, p.2)

/-- Second or later byte of a multi-byte UTF-8 sequence. -/
def utf8Cont (b : Nat) : Bool := 128 ≤ b && b ≤ 191

/-- Constraint on the second byte of a three-byte UTF-8 sequence led by `b`
(rejecting overlong forms and surrogates). -/
def utf8Second3 (b c : Nat) : Bool :=
  if b = 224 then 160 ≤ c && c ≤ 191
  else if b = 237 then 128 ≤ c && c ≤ 159
  else utf8Cont c

/-- Constraint on the second byte of a four-byte UTF-8 sequence led by `b`
(rejecting overlong forms and code points above U+10FFFF). -/
def utf8Second4 (b c : Nat) : Bool :=
  if b = 240 then 144 ≤ c && c ≤ 191
  else if b = 244 then 128 ≤ c && c ≤ 143
  else utf8Cont c

/-- Standard UTF-8 validity (RFC 3629), as enforced by Rust `String`
construction. -/
def utf8Valid : List Nat → Bool
  | [] => true
  | b :: rest =>
    if b ≤ 127 then utf8Valid rest
    else if b < 194 then false
    else if b ≤ 223 then
      match rest with
      | c1 :: rest' => utf8Cont c1 && utf8Valid rest'
      | [] => false
    else if b ≤ 239 then
      match rest with
      | c1 :: c2 :: rest' => utf8Second3 b c1 && utf8Cont c2 && utf8Valid rest'
      | _ => false
    else if b ≤ 244 then
      match rest with
      | c1 :: c2 :: c3 :: rest' =>
        utf8Second4 b c1 && utf8Cont c2 && utf8Cont c3 && utf8Valid rest'
      | _ => false
    else false

/-- `BufRead::read_line`: read up to and including the first LF and require
the bytes to be valid UTF-8 (`InvalidData` otherwise). -/
def readLineStr (input : List Nat) : Res (List Nat × List Nat) :=
  if utf8Valid (splitAtNl input).1 then .ok (splitAtNl input)
  else .err (.io .invalidData)

/-- ASCII byte of a whitespace character, as trimmed by `str::trim`
(the non-ASCII Unicode whitespace code points are not modelled; every
payload the interpreter trims is produced by ASCII-oriented picklers). -/
def isWsB (b : Nat) : Bool := b = 32 || (9 ≤ b && b ≤ 13)

/-- `str::trim` over the UTF-8 bytes. -/
def trimAscii (l : List Nat) : List Nat :=
  ((l.dropWhile isWsB).reverse.dropWhile isWsB).reverse

/-- ASCII decimal digit byte. -/
def isDigitB (b : Nat) : Bool := 48 ≤ b && b ≤ 57

/-- Numeric value of a digit string. -/
def digitsToNat (l : List Nat) : Nat :=
  l.foldl (fun a b => a * 10 + (b - 48)) 0

/-- One or more ASCII digits, as required after the optional sign by the
Rust integer `FromStr` grammar. -/
def parseNatDigits (l : List Nat) : Option Nat :=
  if l ≠ [] && l.all isDigitB then some (digitsToNat l) else none

/-- Rust signed-integer parsing with the given inclusive bounds:
optional `+`/`-` sign, one or more digits, in-range check
(out-of-range input is a parse error, not a wrap). -/
def parseIntSigned (lo hi : Int) (l : List Nat) : Option Int :=
  let sd : Int × List Nat :=
    match l with
    | 43 :: r => (1, r)
    | 45 :: r => (-1, r)
    | _ => (1, l)
  match parseNatDigits sd.2 with
  | Option.none => Option.none
  | some n =>
    let v : Int := sd.1 * n
    if lo ≤ v ∧ v ≤ hi then some v else Option.none

/-- `str::parse::<i32>`. -/
def parseI32 : List Nat → Option Int :=
  parseIntSigned (-(2 ^ 31)) (2 ^ 31 - 1)

/-- `str::parse::<i128>`. -/
def parseI128 : List Nat → Option Int :=
  parseIntSigned (-(2 ^ 127)) (2 ^ 127 - 1)

/-- `str::parse::<u32>`: optional `+` (a minus sign is not in the unsigned
grammar), one or more digits, bound check. -/
def parseU32 (l : List Nat) : Option Nat :=
  let d := match l with
    | 43 :: r => r
    | _ => l
  match parseNatDigits d with
  | Option.none => Option.none
  | some n => if n ≤ 2 ^ 32 - 1 then some n else Option.none

/-- ASCII lower-casing of a byte, for the case-insensitive float keywords. -/
def lowerB (b : Nat) : Nat := if 65 ≤ b && b ≤ 90 then b + 32 else b

/-- Drop one leading `+`/`-` sign byte. -/
def dropSign : List Nat → List Nat
  | 43 :: r => r
  | 45 :: r => r
  | l => l

/-- Exponent suffix of the Rust `f64` literal grammar: empty, or `e`/`E`
followed by an optionally signed nonempty digit string. -/
def f64ExpOk (l : List Nat) : Bool :=
  match l with
  | [] => true
  | e :: r =>
    if e = 101 || e = 69 then
      let r' := dropSign r
      let d := r'.takeWhile isDigitB
      d ≠ [] && r'.dropWhile isDigitB = []
    else false

/-- Unsigned numeric part of the Rust `f64` literal grammar:
`digits [. digits?] [exp]` or `. digits [exp]`. -/
def f64NumberOk (l : List Nat) : Bool :=
  let d1 := l.takeWhile isDigitB
  let r1 := l.dropWhile isDigitB
  match r1 with
  | 46 :: r2 =>
    let d2 := r2.takeWhile isDigitB
    let r3 := r2.dropWhile isDigitB
    (d1 ≠ [] || d2 ≠ []) && f64ExpOk r3
  | _ => d1 ≠ [] && f64ExpOk r1

/-- `str::parse::<f64>` success predicate: optional sign, then (case
insensitively) `inf`, `infinity`, `nan`, or a decimal number.  Only
well-formedness matters to the verified properties: interpreted float
values are never inspected, so `Value.f64` carries the literal itself. -/
def isF64Literal (l : List Nat) : Bool :=
  let m := dropSign l
  let low := m.map lowerB
  low = [105, 110, 102] || low = [105, 110, 102, 105, 110, 105, 116, 121] ||
    low = [110, 97, 110] || f64NumberOk m

/-- Little-endian value of a byte list (first byte least significant). -/
def leVal (l : List Nat) : Nat :=
  l.foldr (fun b acc => b + 256 * acc) 0

/-- Reinterpret an unsigned `w`-bit value as two's-complement signed. -/
def toSigned (w : Nat) (n : Nat) : Int :=
  if n < 2 ^ (w - 1) then (n : Int) else (n : Int) - 2 ^ w

/-- `trim_end_matches('L')`: drop every trailing `L` byte (0x4C). -/
def dropTrailingL (l : List Nat) : List Nat :=
  (l.reverse.dropWhile (fun b => b = 76)).reverse

/-- Mirror of the `Unpickler` struct state in src/pickle.rs.  Both stacks
are embedded with the top at the head of the list, so a Rust `Vec` appears
here reversed; `memo` is the `HashMap<u32, Value>` as an association list
with insert-replaces-existing-key semantics.  The `options` field is
omitted: no handler implemented in the source reads it (the only consumer,
`decode_string`, is `todo!`). -/
structure Unpickler where
  metastack : List (List Value)
  stack : List Value
  memo : List (Nat × Value)
  proto : Nat

/-- `Unpickler::new(UnpicklerOptions::default())`: empty stacks and memo,
protocol 0. -/
def initUnpickler : Unpickler := ⟨[], [], [], 0⟩

/-- `HashMap::insert`: replace the value at an existing key, otherwise add
the binding. -/
def memoInsert (k : Nat) (v : Value) : List (Nat × Value) → List (Nat × Value)
  | [] => [(k, v)]
  | (k', v') :: rest =>
    if k' = k then (k, v) :: rest else (k', v') :: memoInsert k v rest

/-- `Unpickler::pop_mark`: return the current operand stack contents (in
`Vec` order, bottom first) and restore the parent stack popped from the
metastack; `metastack.pop().unwrap()` panics when the metastack is empty. -/
def pop_mark (st : Unpickler) : Res (List Value × Unpickler) :=
  match st.metastack with
  | [] => .panicked "unwrap on None"
  | parent :: ms => .ok (st.stack.reverse, ⟨ms, parent, st.memo, st.proto⟩)

/-- `Unpickler::load_mark`: push the current operand stack onto the
metastack and start a fresh empty one. -/
def load_mark (st : Unpickler) (file : List Nat) : Res (Unpickler × List Nat) :=
  .ok (⟨st.stack :: st.metastack, [], st.memo, st.proto⟩, file)

/-- `Unpickler::load_pop`: drop the stack top when the stack is nonempty,
otherwise discard a mark frame via `pop_mark` (which panics with no frame). -/
def load_pop (st : Unpickler) (file : List Nat) : Res (Unpickler × List Nat) :=
  match st.stack with
  | _ :: s => .ok (⟨st.metastack, s, st.memo, st.proto⟩, file)
  | [] => (pop_mark st).bind fun p => .ok (p.2, file)

/-- `Unpickler::load_pop_mark`. -/
def load_pop_mark (st : Unpickler) (file : List Nat) : Res (Unpickler × List Nat) :=
  (pop_mark st).bind fun p => .ok (p.2, file)

/-- `Unpickler::load_dup`: clone the stack top and push it;
`StackUnderflow` when the stack is empty. -/
def load_dup (st : Unpickler) (file : List Nat) : Res (Unpickler × List Nat) :=
  match st.stack with
  | v :: s => .ok (⟨st.metastack, v :: v :: s, st.memo, st.proto⟩, file)
  | [] => .err (.syn .stackUnderflow)

/-- `Unpickler::load_float`: read a line, trim it, parse as `f64` and push
`F64`.  The parse-failure error code (the `From` impl for the parse error
lives in the crate root, which is not under src/) is *Modelled from the
spec:* an unparsable ASCII number yields `InvalidLiteral(raw)`. -/
def load_float (st : Unpickler) (file : List Nat) : Res (Unpickler × List Nat) :=
  (readLineStr file).bind fun p =>
    if isF64Literal (trimAscii p.1) then
      .ok (⟨st.metastack, .f64 (trimAscii p.1) :: st.stack, st.memo, st.proto⟩, p.2)
    else .err (.syn (.invalidLiteral (trimAscii p.1)))

/-- `Unpickler::load_int`: read a line and compare the raw line bytes
against the whole `TRUE`/`FALSE` constants `I01\n` / `I00\n` (including
their leading `I` byte, exactly as `buf.as_bytes() == TRUE` does in the
source); otherwise trim and parse as `i32`, pushing `Value::Int`.
Parse-failure error code modelled from the spec as `InvalidLiteral`. -/
def load_int (st : Unpickler) (file : List Nat) : Res (Unpickler × List Nat) :=
  (readLineStr file).bind fun p =>
    if p.1 = [73, 48, 49, 10] then
      .ok (⟨st.metastack, .bool true :: st.stack, st.memo, st.proto⟩, p.2)
    else if p.1 = [73, 48, 48, 10] then
      .ok (⟨st.metastack, .bool false :: st.stack, st.memo, st.proto⟩, p.2)
    else
      match parseI32 (trimAscii p.1) with
      | some i => .ok (⟨st.metastack, .int i :: st.stack, st.memo, st.proto⟩, p.2)
      | Option.none => .err (.syn (.invalidLiteral (trimAscii p.1)))

/-- `Unpickler::load_binint`: 4-byte little-endian signed, pushed as
`Value::Int`. -/
def load_binint (st : Unpickler) (file : List Nat) : Res (Unpickler × List Nat) :=
  (readExact 4 file).bind fun p =>
    .ok (⟨st.metastack, .int (toSigned 32 (leVal p.1)) :: st.stack, st.memo, st.proto⟩, p.2)

/-- `Unpickler::load_binint1`: one byte, zero-extended (`buf[0] as i32`),
pushed as `Value::Int`. -/
def load_binint1 (st : Unpickler) (file : List Nat) : Res (Unpickler × List Nat) :=
  (readExact 1 file).bind fun p =>
    .ok (⟨st.metastack, .int (p.1.getD 0 0) :: st.stack, st.memo, st.proto⟩, p.2)

/-- `Unpickler::load_long`: read a line, trim, strip all trailing `L`
bytes (`trim_end_matches('L')`), parse as `i128` and push `Value::I128`.
Parse-failure error code modelled from the spec as `InvalidLiteral`. -/
def load_long (st : Unpickler) (file : List Nat) : Res (Unpickler × List Nat) :=
  (readLineStr file).bind fun p =>
    match parseI128 (dropTrailingL (trimAscii p.1)) with
    | some i => .ok (⟨st.metastack, .i128 i :: st.stack, st.memo, st.proto⟩, p.2)
    | Option.none => .err (.syn (.invalidLiteral (dropTrailingL (trimAscii p.1))))

/-- `Unpickler::load_binint2`: reads two bytes and pushes the unsigned
16-bit value as `Value::Int`, then unconditionally hits `todo!`, so after a
successful read the handler panics. -/
def load_binint2 (st : Unpickler) (file : List Nat) : Res (Unpickler × List Nat) :=
  (readExact 2 file).bind fun _ => .panicked "Unpickler::load_binint2"

/-- `Unpickler::load_none`. -/
def load_none (st : Unpickler) (file : List Nat) : Res (Unpickler × List Nat) :=
  .ok (⟨st.metastack, .none :: st.stack, st.memo, st.proto⟩, file)

/-- `Unpickler::load_persid`: read a line (UTF-8) and push `PersId` with
the raw line, trailing LF included. -/
def load_persid (st : Unpickler) (file : List Nat) : Res (Unpickler × List Nat) :=
  (readLineStr file).bind fun p =>
    .ok (⟨st.metastack, .persId p.1 :: st.stack, st.memo, st.proto⟩, p.2)

/-- `Unpickler::load_binpersid`: pop (`StackUnderflow` when empty) and push
`BinPersId` of the popped value. -/
def load_binpersid (st : Unpickler) (file : List Nat) : Res (Unpickler × List Nat) :=
  match st.stack with
  | v :: s => .ok (⟨st.metastack, .binPersId v :: s, st.memo, st.proto⟩, file)
  | [] => .err (.syn .stackUnderflow)

/-- `Unpickler::load_reduce`: `panic!("load_reduce: not supported")`. -/
def load_reduce (st : Unpickler) (file : List Nat) : Res (Unpickler × List Nat) :=
  .panicked "load_reduce: not supported"

/-- `Unpickler::load_string`: `read_until(b'\n')`, pop the final byte
(`InvalidString` when nothing was read), then require length > 3 with a
single-quote first byte equal to the second-to-last byte, in which case
`decode_string` is reached — and `decode_string` is `todo!`, a panic;
otherwise `InvalidString`. -/
def load_string (st : Unpickler) (file : List Nat) : Res (Unpickler × List Nat) :=
  match (splitAtNl file).1.reverse with
  | [] => .err (.syn .invalidString)
  | _ :: rb =>
    if 3 < rb.reverse.length && rb.reverse.get? 0 == some 39 &&
        rb.reverse.get? 0 == rb.reverse.get? (rb.reverse.length - 2) then
      .panicked "Unpickler::decode_string"
    else .err (.syn .invalidString)

/-- `Unpickler::load_binstring`: 4-byte little-endian *signed* length cast
`as usize` (a negative value wraps modulo 2^64), read that many bytes, then
reach `decode_string`, which is `todo!`. -/
def load_binstring (st : Unpickler) (file : List Nat) : Res (Unpickler × List Nat) :=
  (readExact 4 file).bind fun p =>
    let sz : Int := toSigned 32 (leVal p.1)
    let len : Nat := (if sz < 0 then sz + 2 ^ 64 else sz).toNat
    (readExact len p.2).bind fun _ => .panicked "Unpickler::decode_string"

/-- `Unpickler::load_short_binstring`: 1-byte length, read, then
`decode_string` (`todo!`). -/
def load_short_binstring (st : Unpickler) (file : List Nat) : Res (Unpickler × List Nat) :=
  (readExact 1 file).bind fun p =>
    (readExact (p.1.getD 0 0) p.2).bind fun _ => .panicked "Unpickler::decode_string"

/-- `Unpickler::load_unicode`: `read_until(b'\n')` (LF retained), then
`String::from_utf8`; the failure error code (crate-root `From` impl, not
under src/) is *Modelled from the spec:* `StringNotUTF8`. -/
def load_unicode (st : Unpickler) (file : List Nat) : Res (Unpickler × List Nat) :=
  if utf8Valid (splitAtNl file).1 then
    .ok (⟨st.metastack, .string (splitAtNl file).1 :: st.stack, st.memo, st.proto⟩,
      (splitAtNl file).2)
  else .err (.syn .stringNotUTF8)

/-- `Unpickler::load_binunicode`: 4-byte little-endian unsigned length,
read, `String::from_utf8` (failure code modelled from the spec as
`StringNotUTF8`), push `String`. -/
def load_binunicode (st : Unpickler) (file : List Nat) : Res (Unpickler × List Nat) :=
  (readExact 4 file).bind fun p =>
    (readExact (leVal p.1) p.2).bind fun q =>
      if utf8Valid q.1 then
        .ok (⟨st.metastack, .string q.1 :: st.stack, st.memo, st.proto⟩, q.2)
      else .err (.syn .stringNotUTF8)

/-- `Unpickler::load_append`: pop a value and append it to the `List` that
must be on top of the remaining stack; `StackUnderflow` when an operand is
missing, `InvalidValue` when the target is not a `List` (the Rust message
interpolates the `Debug` rendering of the target, which is not modelled). -/
def load_append (st : Unpickler) (file : List Nat) : Res (Unpickler × List Nat) :=
  match st.stack with
  | [] => .err (.syn .stackUnderflow)
  | [_] => .err (.syn .stackUnderflow)
  | v :: target :: s =>
    match target with
    | .list l => .ok (⟨st.metastack, .list (l ++ [v]) :: s, st.memo, st.proto⟩, file)
    | _ => .err (.syn (.invalidValue "Expected list on stack but found"))

/-- `Unpickler::load_dict`: `pop_mark`, pair the items up in `Vec` order
(`items[i+1]` indexes out of bounds — a panic — when the count is odd),
push `Dict`. -/
def load_dict (st : Unpickler) (file : List Nat) : Res (Unpickler × List Nat) :=
  (pop_mark st).bind fun p =>
    match pairUp p.1 with
    | some pairs => .ok (⟨p.2.metastack, .dict pairs :: p.2.stack, p.2.memo, p.2.proto⟩, file)
    | Option.none => .panicked "index out of bounds"
where
  pairUp : List Value → Option (List (Value × Value))
    | [] => some []
    | [_] => Option.none
    | k :: v :: rest => (pairUp rest).map fun ps => (k, v) :: ps

/-- `Unpickler::load_put`: read a decimal id line, parse as `u32`
(failure code modelled from the spec as `InvalidLiteral`), store a clone of
the stack top into the memo at that id — `stack.last().unwrap()` panics on
an empty stack — and leave the stack unchanged. -/
def load_put (st : Unpickler) (file : List Nat) : Res (Unpickler × List Nat) :=
  (readLineStr file).bind fun p =>
    match parseU32 (trimAscii p.1) with
    | Option.none => .err (.syn (.invalidLiteral (trimAscii p.1)))
    | some i =>
      match st.stack with
      | [] => .panicked "unwrap on None"
      | v :: _ =>
        .ok (⟨st.metastack, st.stack, memoInsert i v st.memo, st.proto⟩, p.2)

/-- `Unpickler::load_setitem`: pop value and key with `unwrap` (panicking
on underflow), then `last_mut().unwrap()` must be a `Dict`
(`unreachable!` — a panic — otherwise), and the pair is appended. -/
def load_setitem (st : Unpickler) (file : List Nat) : Res (Unpickler × List Nat) :=
  match st.stack with
  | v :: k :: target :: s =>
    match target with
    | .dict pairs =>
      .ok (⟨st.metastack, .dict (pairs ++ [(k, v)]) :: s, st.memo, st.proto⟩, file)
    | _ => .panicked "Instead of Dict found"
  | _ => .panicked "unwrap on None"

/-- `Unpickler::load_tuple`: `pop_mark` and push `Tuple` of the collected
items in `Vec` order. -/
def load_tuple (st : Unpickler) (file : List Nat) : Res (Unpickler × List Nat) :=
  (pop_mark st).bind fun p =>
    .ok (⟨p.2.metastack, .tuple p.1 :: p.2.stack, p.2.memo, p.2.proto⟩, file)

/-- `Unpickler::load_proto`: read one byte; protocols 0..=5 are accepted
and recorded, anything larger is `InvalidValue`. -/
def load_proto (st : Unpickler) (file : List Nat) : Res (Unpickler × List Nat) :=
  (readByte file).bind fun p =>
    if p.1 ≤ 5 then .ok (⟨st.metastack, st.stack, st.memo, p.1⟩, p.2)
    else .err (.syn (.invalidValue "unsupported pickle protocol"))

/-- `Unpickler::load_build` is `todo!`. -/
def load_build (st : Unpickler) (file : List Nat) : Res (Unpickler × List Nat) :=
  .panicked "Unpickler::load_build"

/-- `Unpickler::load_global` is `todo!`. -/
def load_global (st : Unpickler) (file : List Nat) : Res (Unpickler × List Nat) :=
  .panicked "Unpickler::load_global"

/-- `Unpickler::load_empty_dict` is `todo!`. -/
def load_empty_dict (st : Unpickler) (file : List Nat) : Res (Unpickler × List Nat) :=
  .panicked "Unpickler::load_empty_dict"

/-- `Unpickler::load_appends` is `todo!`. -/
def load_appends (st : Unpickler) (file : List Nat) : Res (Unpickler × List Nat) :=
  .panicked "Unpickler::load_appends"

/-- `Unpickler::load_get` is `todo!`. -/
def load_get (st : Unpickler) (file : List Nat) : Res (Unpickler × List Nat) :=
  .panicked "Unpickler::load_get"

/-- `Unpickler::load_binget` is `todo!`. -/
def load_binget (st : Unpickler) (file : List Nat) : Res (Unpickler × List Nat) :=
  .panicked "Unpickler::load_binget"

/-- `Unpickler::load_inst` is `todo!`. -/
def load_inst (st : Unpickler) (file : List Nat) : Res (Unpickler × List Nat) :=
  .panicked "Unpickler::load_inst"

/-- `Unpickler::load_long_binget` is `todo!`. -/
def load_long_binget (st : Unpickler) (file : List Nat) : Res (Unpickler × List Nat) :=
  .panicked "Unpickler::load_long_binget"

/-- `Unpickler::load_list` is `todo!`. -/
def load_list (st : Unpickler) (file : List Nat) : Res (Unpickler × List Nat) :=
  .panicked "Unpickler::load_list"

/-- `Unpickler::load_empty_list` is `todo!`. -/
def load_empty_list (st : Unpickler) (file : List Nat) : Res (Unpickler × List Nat) :=
  .panicked "Unpickler::load_empty_list"

/-- `Unpickler::load_obj` is `todo!`. -/
def load_obj (st : Unpickler) (file : List Nat) : Res (Unpickler × List Nat) :=
  .panicked "Unpickler::load_obj"

/-- `Unpickler::load_binput` is `todo!`. -/
def load_binput (st : Unpickler) (file : List Nat) : Res (Unpickler × List Nat) :=
  .panicked "Unpickler::load_binput"

/-- `Unpickler::load_long_binput` is `todo!`. -/
def load_long_binput (st : Unpickler) (file : List Nat) : Res (Unpickler × List Nat) :=
  .panicked "Unpickler::load_long_binput"

/-- `Unpickler::load_empty_tuple` is `todo!`. -/
def load_empty_tuple (st : Unpickler) (file : List Nat) : Res (Unpickler × List Nat) :=
  .panicked "Unpickler::load_empty_tuple"

/-- `Unpickler::load_setitems` is `todo!`. -/
def load_setitems (st : Unpickler) (file : List Nat) : Res (Unpickler × List Nat) :=
  .panicked "Unpickler::load_setitems"

/-- `Unpickler::load_binfloat` is `todo!`. -/
def load_binfloat (st : Unpickler) (file : List Nat) : Res (Unpickler × List Nat) :=
  .panicked "Unpickler::load_binfloat"

/-- `Unpickler::load_newobj` is `todo!`. -/
def load_newobj (st : Unpickler) (file : List Nat) : Res (Unpickler × List Nat) :=
  .panicked "Unpickler::load_newobj"

/-- `Unpickler::load_ext1` is `todo!`. -/
def load_ext1 (st : Unpickler) (file : List Nat) : Res (Unpickler × List Nat) :=
  .panicked "Unpickler::load_ext1"

/-- `Unpickler::load_ext2` is `todo!`. -/
def load_ext2 (st : Unpickler) (file : List Nat) : Res (Unpickler × List Nat) :=
  .panicked "Unpickler::load_ext2"

/-- `Unpickler::load_ext4` is `todo!`. -/
def load_ext4 (st : Unpickler) (file : List Nat) : Res (Unpickler × List Nat) :=
  .panicked "Unpickler::load_ext4"

/-- `Unpickler::load_tuple1` is `todo!`. -/
def load_tuple1 (st : Unpickler) (file : List Nat) : Res (Unpickler × List Nat) :=
  .panicked "Unpickler::load_tuple1"

/-- `Unpickler::load_tuple2` is `todo!`. -/
def load_tuple2 (st : Unpickler) (file : List Nat) : Res (Unpickler × List Nat) :=
  .panicked "Unpickler::load_tuple2"

/-- `Unpickler::load_tuple3` is `todo!`. -/
def load_tuple3 (st : Unpickler) (file : List Nat) : Res (Unpickler × List Nat) :=
  .panicked "Unpickler::load_tuple3"

/-- `Unpickler::load_newtrue` is `todo!`. -/
def load_newtrue (st : Unpickler) (file : List Nat) : Res (Unpickler × List Nat) :=
  .panicked "Unpickler::load_newtrue"

/-- `Unpickler::load_newfalse` is `todo!`. -/
def load_newfalse (st : Unpickler) (file : List Nat) : Res (Unpickler × List Nat) :=
  .panicked "Unpickler::load_newfalse"

/-- `Unpickler::load_long1` is `todo!`. -/
def load_long1 (st : Unpickler) (file : List Nat) : Res (Unpickler × List Nat) :=
  .panicked "Unpickler::load_long1"

/-- `Unpickler::load_long4` is `todo!`. -/
def load_long4 (st : Unpickler) (file : List Nat) : Res (Unpickler × List Nat) :=
  .panicked "Unpickler::load_long4"

/-- `Unpickler::load_binbytes` is `todo!`. -/
def load_binbytes (st : Unpickler) (file : List Nat) : Res (Unpickler × List Nat) :=
  .panicked "Unpickler::load_binbytes"

/-- `Unpickler::load_short_binbytes` is `todo!`. -/
def load_short_binbytes (st : Unpickler) (file : List Nat) : Res (Unpickler × List Nat) :=
  .panicked "Unpickler::load_short_binbytes"

/-- `Unpickler::load_short_binunicode` is `todo!`. -/
def load_short_binunicode (st : Unpickler) (file : List Nat) : Res (Unpickler × List Nat) :=
  .panicked "Unpickler::load_short_binunicode"

/-- `Unpickler::load_binunicode8` is `todo!`. -/
def load_binunicode8 (st : Unpickler) (file : List Nat) : Res (Unpickler × List Nat) :=
  .panicked "Unpickler::load_binunicode8"

/-- `Unpickler::load_binbytes8` is `todo!`. -/
def load_binbytes8 (st : Unpickler) (file : List Nat) : Res (Unpickler × List Nat) :=
  .panicked "Unpickler::load_binbytes8"

/-- `Unpickler::load_empty_set` is `todo!`. -/
def load_empty_set (st : Unpickler) (file : List Nat) : Res (Unpickler × List Nat) :=
  .panicked "Unpickler::load_empty_set"

/-- `Unpickler::load_additems` is `todo!`. -/
def load_additems (st : Unpickler) (file : List Nat) : Res (Unpickler × List Nat) :=
  .panicked "Unpickler::load_additems"

/-- `Unpickler::load_frozenset` is `todo!`. -/
def load_frozenset (st : Unpickler) (file : List Nat) : Res (Unpickler × List Nat) :=
  .panicked "Unpickler::load_frozenset"

/-- `Unpickler::load_newobj_ex` is `todo!`. -/
def load_newobj_ex (st : Unpickler) (file : List Nat) : Res (Unpickler × List Nat) :=
  .panicked "Unpickler::load_newobj_ex"

/-- `Unpickler::load_stack_global` is `todo!`. -/
def load_stack_global (st : Unpickler) (file : List Nat) : Res (Unpickler × List Nat) :=
  .panicked "Unpickler::load_stack_global"

/-- `Unpickler::load_memoize` is `todo!`. -/
def load_memoize (st : Unpickler) (file : List Nat) : Res (Unpickler × List Nat) :=
  .panicked "Unpickler::load_memoize"

/-- `Unpickler::load_frame` is `todo!`. -/
def load_frame (st : Unpickler) (file : List Nat) : Res (Unpickler × List Nat) :=
  .panicked "Unpickler::load_frame"

/-- `Unpickler::load_bytearray8` is `todo!`. -/
def load_bytearray8 (st : Unpickler) (file : List Nat) : Res (Unpickler × List Nat) :=
  .panicked "Unpickler::load_bytearray8"

/-- `Unpickler::load_next_buffer` is `todo!`. -/
def load_next_buffer (st : Unpickler) (file : List Nat) : Res (Unpickler × List Nat) :=
  .panicked "Unpickler::load_next_buffer"

/-- `Unpickler::load_readonly_buffer` is `todo!`. -/
def load_readonly_buffer (st : Unpickler) (file : List Nat) : Res (Unpickler × List Nat) :=
  .panicked "Unpickler::load_readonly_buffer"

/-- `Unpickler::load_op`: dispatch on the opcode byte (the `STOP` byte 46
never reaches this function, exactly as in the source loop).  The fallback
arm is `unreachable!("Unspported op: ..")` — a panic, with the message text
of the source (the interpolated opcode number is not modelled). -/
def loadOp (op : Nat) (st : Unpickler) (file : List Nat) : Res (Unpickler × List Nat) :=
  match op with
  | 40 => load_mark st file
  | 48 => load_pop st file
  | 49 => load_pop_mark st file
  | 50 => load_dup st file
  | 70 => load_float st file
  | 73 => load_int st file
  | 74 => load_binint st file
  | 75 => load_binint1 st file
  | 76 => load_long st file
  | 77 => load_binint2 st file
  | 78 => load_none st file
  | 80 => load_persid st file
  | 81 => load_binpersid st file
  | 82 => load_reduce st file
  | 83 => load_string st file
  | 84 => load_binstring st file
  | 85 => load_short_binstring st file
  | 86 => load_unicode st file
  | 88 => load_binunicode st file
  | 97 => load_append st file
  | 98 => load_build st file
  | 99 => load_global st file
  | 100 => load_dict st file
  | 125 => load_empty_dict st file
  | 101 => load_appends st file
  | 103 => load_get st file
  | 104 => load_binget st file
  | 105 => load_inst st file
  | 106 => load_long_binget st file
  | 108 => load_list st file
  | 93 => load_empty_list st file
  | 111 => load_obj st file
  | 112 => load_put st file
  | 113 => load_binput st file
  | 114 => load_long_binput st file
  | 115 => load_setitem st file
  | 116 => load_tuple st file
  | 41 => load_empty_tuple st file
  | 117 => load_setitems st file
  | 71 => load_binfloat st file
  | 128 => load_proto st file
  | 129 => load_newobj st file
  | 130 => load_ext1 st file
  | 131 => load_ext2 st file
  | 132 => load_ext4 st file
  | 133 => load_tuple1 st file
  | 134 => load_tuple2 st file
  | 135 => load_tuple3 st file
  | 136 => load_newtrue st file
  | 137 => load_newfalse st file
  | 138 => load_long1 st file
  | 139 => load_long4 st file
  | 66 => load_binbytes st file
  | 67 => load_short_binbytes st file
  | 140 => load_short_binunicode st file
  | 141 => load_binunicode8 st file
  | 142 => load_binbytes8 st file
  | 143 => load_empty_set st file
  | 144 => load_additems st file
  | 145 => load_frozenset st file
  | 146 => load_newobj_ex st file
  | 147 => load_stack_global st file
  | 148 => load_memoize st file
  | 149 => load_frame st file
  | 150 => load_bytearray8 st file
  | 151 => load_next_buffer st file
  | 152 => load_readonly_buffer st file
  | _ => .panicked "Unspported op"

/-- Fuel-indexed embedding of the `Unpickler::load` loop: read one opcode
byte (`Io(UnexpectedEof)` at end of stream), return the popped stack top at
`STOP` (byte 46) — `Err(Syntax(EOFWhileParsing))` when the stack is empty —
and otherwise dispatch and continue.  The result carries the unread rest of
the input.  Each iteration consumes at least the opcode byte, so fuel
`input.length + 1` never runs out; the fuel-exhaustion outcome is a
distinguished panic message that no run from `load` reaches. -/
def loadAux : Nat → Unpickler → List Nat → Res (Value × List Nat)
  | 0, _, _ => .panicked "out of fuel"
  | fuel + 1, st, input =>
    (readByte input).bind fun p =>
      if p.1 = 46 then
        match st.stack with
        | v :: _ => .ok (v, p.2)
        | [] => .err (.syn .eofWhileParsing)
      else
        (loadOp p.1 st p.2).bind fun q => loadAux fuel q.1 q.2

/-- `Unpickler::load` on a fresh `Unpickler` (the `decode` entry point of
the spec), returning the decoded value and the unread rest of the input. -/
def load (input : List Nat) : Res (Value × List Nat) :=
  loadAux (input.length + 1) initUnpickler input

/-- Push a sequence of values (first element pushed first), describing what
a run of value-producing opcodes between `MARK` and `pop_mark` does to the
operand stack. -/
def pushAll (vs : List Value) (st : Unpickler) : Unpickler :=
  match vs with
  | [] => st
  | v :: rest => pushAll rest ⟨st.metastack, v :: st.stack, st.memo, st.proto⟩

/-- Whether an error code is `TrailingBytes`. -/
def ErrorCode.isTB : ErrorCode → Bool
  | .trailingBytes => true
  | _ => false

/-- Whether an error carries the `TrailingBytes` code. -/
def PError.hasTB : PError → Bool
  | .io _ => false
  | .eval c _ => c.isTB
  | .syn c => c.isTB

/-- Whether an outcome is a `TrailingBytes` error. -/
def Res.hasTB {α : Type} : Res α → Bool
  | .err e => e.hasTB
  | _ => false

/-- IEEE-754 binary64 exponent field of a bit pattern. -/
def f64ExpBits (b : Nat) : Nat := b / 2 ^ 52 % 2 ^ 11

/-- IEEE-754 binary64 fraction field of a bit pattern. -/
def f64FracBits (b : Nat) : Nat := b % 2 ^ 52

/-- The bit pattern encodes a NaN (exponent all ones, nonzero fraction). -/
def f64IsNaNBits (b : Nat) : Bool := f64ExpBits b = 2047 && f64FracBits b ≠ 0

/-- The bit pattern encodes a zero (`+0.0` is 0, `-0.0` is `2^63`). -/
def f64IsZeroBits (b : Nat) : Bool := b = 0 || b = 2 ^ 63

/-- The `derive(PartialEq)` on `F64Wrapper` in src/wrappers.rs compares the
wrapped `f64` with IEEE-754 equality.  At the bit level this is: neither
side NaN, and either identical bit patterns or both zeros (binary64 has no
other pair of distinct bit patterns denoting equal values, and NaN compares
unequal to everything including an identical bit pattern). -/
def f64PartialEqBits (a b : Nat) : Bool :=
  !f64IsNaNBits a && !f64IsNaNBits b && (a == b || (f64IsZeroBits a && f64IsZeroBits b))

/-- The `Hash` impl for `F64Wrapper` hashes `self.0.to_bits()`: the data
fed to the hasher is exactly the bit pattern. -/
def f64HashInput (a : Nat) : Nat := a

/-! ## Theorems -/

/-- Stacking behaviour of `pushAll` on an explicit state. -/
theorem pushAll_eq (vs : List Value) :
    ∀ (ms : List (List Value)) (s : List Value) (mem : List (Nat × Value)) (p : Nat),
    pushAll vs ⟨ms, s, mem, p⟩ = ⟨ms, vs.reverse ++ s, mem, p⟩ := by
  induction vs with
  | nil => intro ms s mem p; simp [pushAll]
  | cons v rest ih =>
    intro ms s mem p
    simp [pushAll, ih, List.append_assoc]

/-- Sequencing preserves freedom from `TrailingBytes`. -/
theorem hasTB_bind {α β : Type} (r : Res α) (f : α → Res β)
    (h1 : r.hasTB = false) (h2 : ∀ a, (f a).hasTB = false) :
    (r.bind f).hasTB = false := by
  cases r with
  | ok a => exact h2 a
  | err e => simpa [Res.bind, Res.hasTB] using h1
  | panicked m => simp [Res.bind, Res.hasTB]

/-- Reading a byte never produces `TrailingBytes`. -/
theorem readByte_noTB (input : List Nat) : (readByte input).hasTB = false := by
  cases input <;> simp [readByte, Res.hasTB, PError.hasTB]

/-- Reading a fixed-width buffer never produces `TrailingBytes`. -/
theorem readExact_noTB (n : Nat) (input : List Nat) :
    (readExact n input).hasTB = false := by
  unfold readExact
  split <;> simp [Res.hasTB, PError.hasTB]

/-- Reading a UTF-8 line never produces `TrailingBytes`. -/
theorem readLineStr_noTB (input : List Nat) : (readLineStr input).hasTB = false := by
  unfold readLineStr
  split <;> simp [Res.hasTB, PError.hasTB]

/-- `pop_mark` never produces `TrailingBytes`. -/
theorem pop_mark_noTB (st : Unpickler) : (pop_mark st).hasTB = false := by
  unfold pop_mark
  split <;> simp [Res.hasTB]

/-- `load_pop` never produces `TrailingBytes`. -/
theorem load_pop_noTB (st : Unpickler) (f : List Nat) :
    (load_pop st f).hasTB = false := by
  unfold load_pop
  split
  · simp [Res.hasTB]
  · exact hasTB_bind _ _ (pop_mark_noTB st) fun _ => by simp [Res.hasTB]

/-- `load_pop_mark` never produces `TrailingBytes`. -/
theorem load_pop_mark_noTB (st : Unpickler) (f : List Nat) :
    (load_pop_mark st f).hasTB = false :=
  hasTB_bind _ _ (pop_mark_noTB st) fun _ => by simp [Res.hasTB]

/-- `load_dup` never produces `TrailingBytes`. -/
theorem load_dup_noTB (st : Unpickler) (f : List Nat) :
    (load_dup st f).hasTB = false := by
  unfold load_dup
  split <;> simp [Res.hasTB, PError.hasTB, ErrorCode.isTB]

/-- `load_float` never produces `TrailingBytes`. -/
theorem load_float_noTB (st : Unpickler) (f : List Nat) :
    (load_float st f).hasTB = false := by
  unfold load_float
  refine hasTB_bind _ _ (readLineStr_noTB f) fun p => ?_
  split <;> simp [Res.hasTB, PError.hasTB, ErrorCode.isTB]

/-- `load_int` never produces `TrailingBytes`. -/
theorem load_int_noTB (st : Unpickler) (f : List Nat) :
    (load_int st f).hasTB = false := by
  unfold load_int
  refine hasTB_bind _ _ (readLineStr_noTB f) fun p => ?_
  repeat' split
  all_goals simp [Res.hasTB, PError.hasTB, ErrorCode.isTB]

/-- `load_binint` never produces `TrailingBytes`. -/
theorem load_binint_noTB (st : Unpickler) (f : List Nat) :
    (load_binint st f).hasTB = false := by
  unfold load_binint
  exact hasTB_bind _ _ (readExact_noTB 4 f) fun p => by simp [Res.hasTB]

/-- `load_binint1` never produces `TrailingBytes`. -/
theorem load_binint1_noTB (st : Unpickler) (f : List Nat) :
    (load_binint1 st f).hasTB = false := by
  unfold load_binint1
  exact hasTB_bind _ _ (readExact_noTB 1 f) fun p => by simp [Res.hasTB]

/-- `load_long` never produces `TrailingBytes`. -/
theorem load_long_noTB (st : Unpickler) (f : List Nat) :
    (load_long st f).hasTB = false := by
  unfold load_long
  refine hasTB_bind _ _ (readLineStr_noTB f) fun p => ?_
  cases hc : parseI128 (dropTrailingL (trimAscii p.1)) <;>
    simp [hc, Res.hasTB, PError.hasTB, ErrorCode.isTB]

/-- `load_binint2` never produces `TrailingBytes`. -/
theorem load_binint2_noTB (st : Unpickler) (f : List Nat) :
    (load_binint2 st f).hasTB = false := by
  unfold load_binint2
  exact hasTB_bind _ _ (readExact_noTB 2 f) fun p => by simp [Res.hasTB]

/-- `load_persid` never produces `TrailingBytes`. -/
theorem load_persid_noTB (st : Unpickler) (f : List Nat) :
    (load_persid st f).hasTB = false := by
  unfold load_persid
  exact hasTB_bind _ _ (readLineStr_noTB f) fun p => by simp [Res.hasTB]

/-- `load_binpersid` never produces `TrailingBytes`. -/
theorem load_binpersid_noTB (st : Unpickler) (f : List Nat) :
    (load_binpersid st f).hasTB = false := by
  unfold load_binpersid
  split <;> simp [Res.hasTB, PError.hasTB, ErrorCode.isTB]

/-- `load_string` never produces `TrailingBytes`. -/
theorem load_string_noTB (st : Unpickler) (f : List Nat) :
    (load_string st f).hasTB = false := by
  unfold load_string
  cases hc : (splitAtNl f).1.reverse with
  | nil => simp [hc, Res.hasTB, PError.hasTB, ErrorCode.isTB]
  | cons hd tl =>
    simp only [hc]
    split <;> simp [Res.hasTB, PError.hasTB, ErrorCode.isTB]

/-- `load_binstring` never produces `TrailingBytes`. -/
theorem load_binstring_noTB (st : Unpickler) (f : List Nat) :
    (load_binstring st f).hasTB = false := by
  unfold load_binstring
  refine hasTB_bind _ _ (readExact_noTB 4 f) fun p => ?_
  exact hasTB_bind _ _ (readExact_noTB _ _) fun q => by simp [Res.hasTB]

/-- `load_short_binstring` never produces `TrailingBytes`. -/
theorem load_short_binstring_noTB (st : Unpickler) (f : List Nat) :
    (load_short_binstring st f).hasTB = false := by
  unfold load_short_binstring
  refine hasTB_bind _ _ (readExact_noTB 1 f) fun p => ?_
  exact hasTB_bind _ _ (readExact_noTB _ _) fun q => by simp [Res.hasTB]

/-- `load_unicode` never produces `TrailingBytes`. -/
theorem load_unicode_noTB (st : Unpickler) (f : List Nat) :
    (load_unicode st f).hasTB = false := by
  unfold load_unicode
  split <;> simp [Res.hasTB, PError.hasTB, ErrorCode.isTB]

/-- `load_binunicode` never produces `TrailingBytes`. -/
theorem load_binunicode_noTB (st : Unpickler) (f : List Nat) :
    (load_binunicode st f).hasTB = false := by
  unfold load_binunicode
  refine hasTB_bind _ _ (readExact_noTB 4 f) fun p => ?_
  refine hasTB_bind _ _ (readExact_noTB _ _) fun q => ?_
  split <;> simp [Res.hasTB, PError.hasTB, ErrorCode.isTB]

/-- `load_append` never produces `TrailingBytes`. -/
theorem load_append_noTB (st : Unpickler) (f : List Nat) :
    (load_append st f).hasTB = false := by
  unfold load_append
  repeat' split
  all_goals simp [Res.hasTB, PError.hasTB, ErrorCode.isTB]

/-- `load_dict` never produces `TrailingBytes`. -/
theorem load_dict_noTB (st : Unpickler) (f : List Nat) :
    (load_dict st f).hasTB = false := by
  unfold load_dict
  refine hasTB_bind _ _ (pop_mark_noTB st) fun p => ?_
  split <;> simp [Res.hasTB]

/-- `load_put` never produces `TrailingBytes`. -/
theorem load_put_noTB (st : Unpickler) (f : List Nat) :
    (load_put st f).hasTB = false := by
  unfold load_put
  refine hasTB_bind _ _ (readLineStr_noTB f) fun p => ?_
  repeat' split
  all_goals simp [Res.hasTB, PError.hasTB, ErrorCode.isTB]

/-- `load_setitem` never produces `TrailingBytes`. -/
theorem load_setitem_noTB (st : Unpickler) (f : List Nat) :
    (load_setitem st f).hasTB = false := by
  unfold load_setitem
  repeat' split
  all_goals simp [Res.hasTB]

/-- `load_tuple` never produces `TrailingBytes`. -/
theorem load_tuple_noTB (st : Unpickler) (f : List Nat) :
    (load_tuple st f).hasTB = false := by
  unfold load_tuple
  exact hasTB_bind _ _ (pop_mark_noTB st) fun p => by simp [Res.hasTB]

/-- `load_proto` never produces `TrailingBytes`. -/
theorem load_proto_noTB (st : Unpickler) (f : List Nat) :
    (load_proto st f).hasTB = false := by
  unfold load_proto
  refine hasTB_bind _ _ (readByte_noTB f) fun p => ?_
  split <;> simp [Res.hasTB, PError.hasTB, ErrorCode.isTB]

set_option maxHeartbeats 2000000 in
/-- No opcode handler produces `TrailingBytes`. -/
theorem loadOp_noTB (op : Nat) (st : Unpickler) (f : List Nat) :
    (loadOp op st f).hasTB = false := by
  unfold loadOp
  split <;>
    first
      | exact load_pop_noTB st f
      | exact load_pop_mark_noTB st f
      | exact load_dup_noTB st f
      | exact load_float_noTB st f
      | exact load_int_noTB st f
      | exact load_binint_noTB st f
      | exact load_binint1_noTB st f
      | exact load_long_noTB st f
      | exact load_binint2_noTB st f
      | exact load_persid_noTB st f
      | exact load_binpersid_noTB st f
      | exact load_string_noTB st f
      | exact load_binstring_noTB st f
      | exact load_short_binstring_noTB st f
      | exact load_unicode_noTB st f
      | exact load_binunicode_noTB st f
      | exact load_append_noTB st f
      | exact load_dict_noTB st f
      | exact load_put_noTB st f
      | exact load_setitem_noTB st f
      | exact load_tuple_noTB st f
      | exact load_proto_noTB st f
      | rfl

/-- The interpreter loop never produces `TrailingBytes`, at any fuel, from
any state, on any input. -/
theorem loadAux_noTB : ∀ (fuel : Nat) (st : Unpickler) (input : List Nat),
    (loadAux fuel st input).hasTB = false := by
  intro fuel
  induction fuel with
  | zero => intro st input; simp [loadAux, Res.hasTB]
  | succ n ih =>
    intro st input
    unfold loadAux
    refine hasTB_bind _ _ (readByte_noTB input) fun p => ?_
    split
    · split <;> simp [Res.hasTB, PError.hasTB, ErrorCode.isTB]
    · exact hasTB_bind _ _ (loadOp_noTB p.1 st p.2) fun q => ih q.1 q.2

/-- Two interpreter steps on a `NONE`-then-`STOP` head, for any fuel and
any trailing bytes. -/
theorem loadAux_none_stop (k : Nat) (extra : List Nat) :
    loadAux (k + 2) initUnpickler (78 :: 46 :: extra) = .ok (.none, extra) := rfl

/-- C3 (amended): `load` performs no end-of-stream check after `STOP`.
It never returns the `TrailingBytes` error (first conjunct: at any fuel,
from any state, on any input), and on success it leaves every byte after
`STOP` unread: for any trailing bytes at all, a `NONE`-`STOP` stream
decodes to `Ok(None)` with the trailing bytes returned unconsumed. -/
theorem c3_no_trailing_check :
    (∀ (fuel : Nat) (st : Unpickler) (input : List Nat),
        (loadAux fuel st input).hasTB = false) ∧
    (∀ extra : List Nat, load (78 :: 46 :: extra) = .ok (.none, extra)) := by
  refine ⟨loadAux_noTB, fun extra => ?_⟩
  exact loadAux_none_stop (extra.length + 1) extra

/-- C1 counterexample: on the stream `80 02 4B 2A 2E` the decoder returns
`Int(42)`, not `I64(42)` as the claim states (`load_binint1` constructs
`Value::Int`, and no handler constructs `I64`). -/
theorem c1_counterexample :
    load [128, 2, 75, 42, 46] = .ok (.int 42, []) ∧ Value.int 42 ≠ Value.i64 42 :=
  ⟨rfl, fun h => Value.noConfusion h⟩

/-- C1 (amended): on `80 02 4B 2A 2E` the decoder returns `Int(42)`, and in
general the `BININT1` handler reads one byte `b` and pushes `Int(b)`,
treating `b` as unsigned (`buf[0] as i32` zero-extends). -/
theorem c1_binint1_pushes_int :
    load [128, 2, 75, 42, 46] = .ok (.int 42, []) ∧
    ∀ (b : Nat) (rest : List Nat) (st : Unpickler), b ≤ 255 →
      load_binint1 st (b :: rest) =
        .ok (⟨st.metastack, .int b :: st.stack, st.memo, st.proto⟩, rest) := by
  refine ⟨rfl, ?_⟩
  intro b rest st _
  have h1 : readExact 1 (b :: rest) = .ok ([b], rest) := by
    simp [readExact]
  simp [load_binint1, h1, Res.bind]

/-- C1 witness: the amended `BININT1` law at byte 42 on a fresh state. -/
theorem c1_witness :
    load_binint1 initUnpickler [42] = .ok (⟨[], [Value.int 42], [], 0⟩, []) :=
  c1_binint1_pushes_int.2 42 [] initUnpickler (by decide)

/-- C2: on the stream `80 02 5D 71 00 28 68 00 65 2E` (which the test suite
expects to produce the `Recursive` error) the decoder panics at the very
first `EMPTY_LIST` opcode, whose handler is `todo!`; no memo or cycle
machinery is ever reached. -/
theorem c2_recursive_stream_panics :
    load [128, 2, 93, 113, 0, 40, 104, 0, 101, 46] =
      .panicked "Unpickler::load_empty_list" := rfl

/-- C3 counterexample: the stream `4E 2E 00` has a byte remaining after
`STOP`, yet `load` returns `Ok(None)` with the byte unread instead of the
`TrailingBytes` error the claim requires. -/
theorem c3_counterexample :
    load [78, 46, 0] = .ok (.none, [0]) ∧ ∀ e, load [78, 46, 0] ≠ .err e := by
  refine ⟨rfl, ?_⟩
  intro e h
  rw [show load [78, 46, 0] = .ok (.none, [0]) from rfl] at h
  exact Res.noConfusion h

/-- C4: the one-byte stream `21` (`'!'`, not a recognized opcode) makes the
dispatcher hit its `unreachable!` arm: the decoder panics instead of
returning the structured `Unsupported` error that the claim (and the
`ErrorCode::Unsupported` variant of src/error.rs) call for. -/
theorem c4_unknown_opcode_panics : load [33] = .panicked "Unspported op" := rfl

/-- C5 counterexample: executing `PUT` with id line `"0"` on the stack
`[None]` stores `None` in the memo but leaves the stack top unchanged —
it is still `None`, not the `MemoRef(0)` the claim requires (and no
refcount exists: the memo maps ids to bare values). -/
theorem c5_counterexample :
    load_put ⟨[], [Value.none], [], 0⟩ [48, 10] =
      .ok (⟨[], [Value.none], [(0, Value.none)], 0⟩, []) ∧
    Value.none ≠ Value.memoRef 0 :=
  ⟨rfl, fun h => Value.noConfusion h⟩

/-- C5 (amended): `PUT` parses a decimal id from its line and stores a
clone of the current stack top into the memo at that id, leaving the
operand stack unchanged; the other three memo-save opcodes (`BINPUT`,
`LONG_BINPUT`, `MEMOIZE`) are unimplemented `todo!` panics. -/
theorem c5_memo_save_semantics :
    (∀ (file line rest : List Nat) (v : Value) (s : List Value)
        (ms : List (List Value)) (mem : List (Nat × Value)) (p : Nat) (i : Nat),
      splitAtNl file = (line, rest) → utf8Valid line = true →
      parseU32 (trimAscii line) = some i →
      load_put ⟨ms, v :: s, mem, p⟩ file =
        .ok (⟨ms, v :: s, memoInsert i v mem, p⟩, rest)) ∧
    (∀ st f, load_binput st f = .panicked "Unpickler::load_binput") ∧
    (∀ st f, load_long_binput st f = .panicked "Unpickler::load_long_binput") ∧
    (∀ st f, load_memoize st f = .panicked "Unpickler::load_memoize") := by
  refine ⟨?_, fun _ _ => rfl, fun _ _ => rfl, fun _ _ => rfl⟩
  intro file line rest v s ms mem p i hsplit hutf hparse
  simp only [load_put, readLineStr, hsplit, hutf, if_true, Res.bind]
  rw [hparse]

/-- C5 witness: the amended `PUT` law on id line `"1"` with a `Bool(true)`
stack top. -/
theorem c5_witness :
    load_put ⟨[], [Value.bool true], [], 0⟩ [49, 10] =
      .ok (⟨[], [Value.bool true], [(1, Value.bool true)], 0⟩, []) :=
  c5_memo_save_semantics.1 [49, 10] [49, 10] [] (Value.bool true) [] [] [] 0 1
    rfl (by decide) (by decide)

/-- C6: the `INT` handler compares the raw line against the whole constant
`I01\n`/`I00\n` including the leading `I` opcode byte, but the line it
reads never contains that byte, so payload `"01"` is parsed as the integer
1 and payload `"00"` as 0 — `Bool` is never produced, contrary to the
claim, to the CPython reference in the file, and to the proto-0 test
pickles. -/
theorem c6_int_bool_literals_not_recognized :
    load [73, 48, 49, 10, 46] = .ok (.int 1, []) ∧
    load [73, 48, 48, 10, 46] = .ok (.int 0, []) :=
  ⟨rfl, rfl⟩

/-- C7 counterexample: on the stream `L5LL\n.` the decoder strips *both*
trailing `L` bytes (`trim_end_matches` strips every match, not at most
one) and returns `I128(5)`, not the `Int` variant the claim names; under
the claim itself `"5L"` would remain after stripping one `L` and the parse
would fail. -/
theorem c7_counterexample :
    load [76, 53, 76, 76, 10, 46] = .ok (.i128 5, []) ∧ Value.i128 5 ≠ Value.int 5 :=
  ⟨rfl, fun h => Value.noConfusion h⟩

/-- C7 (amended): the `LONG` handler trims the line, strips **all**
trailing `L` characters, parses the remainder as a signed decimal bounded
to the 128-bit signed range (not arbitrary precision), and pushes it as an
`I128` value. -/
theorem c7_long_semantics :
    ∀ (file line rest : List Nat) (st : Unpickler) (i : Int),
    splitAtNl file = (line, rest) → utf8Valid line = true →
    parseI128 (dropTrailingL (trimAscii line)) = some i →
    load_long st file =
      .ok (⟨st.metastack, .i128 i :: st.stack, st.memo, st.proto⟩, rest) := by
  intro file line rest st i hsplit hutf hparse
  simp only [load_long, readLineStr, hsplit, hutf, if_true, Res.bind]
  rw [hparse]

/-- C7 witness: the amended `LONG` law on the line `"5L"`. -/
theorem c7_witness :
    load_long initUnpickler [53, 76, 10] = .ok (⟨[], [Value.i128 5], [], 0⟩, []) :=
  c7_long_semantics [53, 76, 10] [53, 76, 10] [] initUnpickler 5 rfl
    (by decide) (by decide)

/-- C8: from any state, `MARK` saves the operand stack `s` on the mark
stack and starts an empty one; after any sequence `vs` of values is pushed,
`pop_mark` returns exactly `vs` in push order and restores the operand
stack to `s` and the mark stack to `ms`. -/
theorem c8_mark_pop_mark_roundtrip :
    ∀ (s : List Value) (ms : List (List Value)) (mem : List (Nat × Value))
      (p : Nat) (f : List Nat) (vs : List Value),
    load_mark ⟨ms, s, mem, p⟩ f = .ok (⟨s :: ms, [], mem, p⟩, f) ∧
    pop_mark (pushAll vs ⟨s :: ms, [], mem, p⟩) = .ok (vs, ⟨ms, s, mem, p⟩) := by
  intro s ms mem p f vs
  refine ⟨rfl, ?_⟩
  rw [pushAll_eq]
  simp [pop_mark]

/-- C9: `F64Wrapper` equality is the *derived* `PartialEq` — IEEE-754
comparison — not bit-pattern equality: a NaN (bits `0x7FF8000000000000`)
does not equal itself although the bit patterns are identical, while
`+0.0` (bits 0) equals `-0.0` (bits `2^63`) although the bit patterns
differ, and those two equal values feed different data to the hasher. -/
theorem c9_f64wrapper_eq_not_bitwise :
    f64PartialEqBits 0x7FF8000000000000 0x7FF8000000000000 = false ∧
    f64PartialEqBits 0 (2 ^ 63) = true ∧
    f64HashInput 0 ≠ f64HashInput (2 ^ 63) := by decide

/-- C10: the one-byte stream consisting only of `STOP` executes `STOP` on
an empty operand stack and `load` returns `Err(Syntax(EOFWhileParsing))`. -/
theorem c10_stop_empty_stack :
    load [46] = .err (.syn .eofWhileParsing) := rfl

end Pickle
